import Mathlib

/-! Verification of the DeepLabV3+ (Xception backbone) architecture definition
    in `deeplabv3p.py`.

    The source builds a Keras computation graph; we give a shallow embedding of
    that graph at the shape level (NHWC shapes as 4-tuples of naturals), plus a
    value-level model of the final sigmoid activation.  External Keras
    primitives (Conv2D, DepthwiseConv2D, ZeroPadding2D, Add, Concatenate,
    GlobalAveragePooling2D, tf.image.resize) are modelled by their documented
    shape contracts:
    * "same" padding: output length = ceil(input / stride);
    * "valid" padding: output length = ceil((input - span + 1) / stride) where
      span = k + (k-1)(d-1) is the dilated kernel span; a negative dimension
      is an error;
    * ZeroPadding2D with a 2-int tuple (a, b): a rows of zeros on top AND
      bottom, b columns of zeros on left AND right (symmetric per dimension);
    * Add: all inputs must have the same shape, otherwise it raises;
    * Concatenate (last axis): batch and spatial sizes must agree, channel
      counts add;
    * tf.image.resize: sets the spatial size to the target; degenerate
      (zero-sized) source or target fails. -/

namespace DLV3

/-- A feature-map shape (batch, height, width, channels), NHWC as in the source. -/
structure Shape where
  batch : ℕ
  h : ℕ
  w : ℕ
  c : ℕ
deriving DecidableEq

/-- Output length of a Keras "same"-padded convolution: ceil(h / stride). -/
def ceilDivStride (h s : ℕ) : ℕ := (h + (s - 1)) / s

/-- Effective receptive span of a kernel-k, dilation-d convolution:
    s = k + (k-1)(d-1) (source line 6; over ℕ, faithful for k, d ≥ 1). -/
def effSpan (k d : ℕ) : ℕ := k + (k - 1) * (d - 1)

/-- Output length of a "valid"-mode convolution: ceil((h - span + 1)/stride);
    fails (negative dimension) when h + 1 < span. -/
def validOut (h k d s : ℕ) : Option ℕ :=
  if h + 1 < effSpan k d then none
  else some ((h + 1 - effSpan k d + (s - 1)) / s)

/-- Keras ZeroPadding2D with a 2-int tuple (ph, pw): ph rows of zeros above AND
    below, pw columns of zeros left AND right (symmetric per dimension). -/
def zeroPadding2D (ph pw : ℕ) (x : Shape) : Shape :=
  ⟨x.batch, x.h + 2 * ph, x.w + 2 * pw, x.c⟩

/-- Keras Conv2D shape contract (bias does not affect shapes). -/
def conv2D (filters k s : ℕ) (padSame : Bool) (d : ℕ) (x : Shape) : Option Shape :=
  if padSame then
    some ⟨x.batch, ceilDivStride x.h s, ceilDivStride x.w s, filters⟩
  else do
    let oh ← validOut x.h k d s
    let ow ← validOut x.w k d s
    some ⟨x.batch, oh, ow, filters⟩

/-- Keras DepthwiseConv2D shape contract: like Conv2D but channel-preserving. -/
def depthwiseConv2D (k s : ℕ) (padSame : Bool) (d : ℕ) (x : Shape) : Option Shape :=
  conv2D x.c k s padSame d x

/-- BatchNormalization is shape-preserving. -/
def bnShape (x : Shape) : Shape := x

/-- ReLU is shape-preserving. -/
def reluShape (x : Shape) : Shape := x

/-- Keras Add merge layer: its documented contract requires identical input
    shapes; a mismatch raises at the point of addition. -/
def addLayer (a b : Shape) : Option Shape := if a = b then some a else none

/-- Keras Concatenate on the channel axis: batch and spatial sizes must agree;
    channel counts add. -/
def concatChannels (xs : List Shape) : Option Shape :=
  match xs with
  | [] => none
  | x :: rest =>
      if rest.all fun y => y.batch == x.batch && y.h == x.h && y.w == x.w then
        some ⟨x.batch, x.h, x.w, (xs.map fun y => y.c).sum⟩
      else none

/-- GlobalAveragePooling2D collapses a 4-D map to (batch, channels). -/
def globalAveragePooling2D (x : Shape) : ℕ × ℕ := (x.batch, x.c)

/-- The Lambda newaxis layer (source line 157): (batch, c) to (batch, 1, 1, c). -/
def lambdaNewaxis (p : ℕ × ℕ) : Shape := ⟨p.1, 1, 1, p.2⟩

/-- tf.image.resize (bilinear): sets the spatial size to the target; a
    zero-sized source or target dimension fails (degenerate resize). -/
def imageResize (th tw : ℕ) (x : Shape) : Option Shape :=
  if x.h = 0 || x.w = 0 || th = 0 || tw = 0 then none
  else some ⟨x.batch, th, tw, x.c⟩

/-- Start padding computed by custom_pad (source line 7): pad_s = (s-1)/2. -/
def custom_pad.pad_s (k_size d_rate : ℕ) : ℕ := (effSpan k_size d_rate - 1) / 2

/-- End padding computed by custom_pad (source line 8): pad_e = (s-1) - pad_s. -/
def custom_pad.pad_e (k_size d_rate : ℕ) : ℕ :=
  (effSpan k_size d_rate - 1) - custom_pad.pad_s k_size d_rate

/-- custom_pad (source lines 5-10): returns ZeroPadding2D((pad_s, pad_e)).
    By the Keras 2-tuple contract this pads the height symmetrically by pad_s
    on each side and the width symmetrically by pad_e on each side. -/
def custom_pad (k_size d_rate : ℕ) (x : Shape) : Shape :=
  zeroPadding2D (custom_pad.pad_s k_size d_rate) (custom_pad.pad_e k_size d_rate) x

/-- ConvBlock (source lines 13-28): custom_pad when stride > 1, then
    Conv2D(n_filters, k, stride, same-iff-stride-1, no bias, dilation d). -/
def ConvBlock.call (n_filters k_size stride d_rate : ℕ) (x : Shape) : Option Shape :=
  conv2D n_filters k_size stride (stride == 1) d_rate
    (if stride > 1 then custom_pad k_size d_rate x else x)

/-- BasicBlock (source lines 31-44): Conv2D("same", no dilation) + BatchNorm + ReLU. -/
def BasicBlock.call (n_filters k_size stride : ℕ) (x : Shape) : Option Shape := do
  let y ← conv2D n_filters k_size stride true 1 x
  some (reluShape (bnShape y))

/-- Primitive Keras layers occurring in SeparableConvBlock's block list. -/
inductive Layer where
  | zeroPad (ph pw : ℕ)
  | relu
  | depthwise (k stride : ℕ) (padSame : Bool) (d : ℕ)
  | conv (filters k stride : ℕ) (padSame : Bool) (d : ℕ)
  | batchNorm
deriving DecidableEq

/-- Shape action of one primitive layer. -/
def Layer.apply : Layer → Shape → Option Shape
  | .zeroPad ph pw, x => some (zeroPadding2D ph pw x)
  | .relu, x => some (reluShape x)
  | .batchNorm, x => some (bnShape x)
  | .depthwise k s ps d, x => depthwiseConv2D k s ps d x
  | .conv f k s ps d, x => conv2D f k s ps d x

/-- SeparableConvBlock.blocks: the list with None placeholders exactly as built
    in source lines 52-61 (pad slot iff stride > 1; a ReLU before the depthwise
    convolution iff activation is False; a ReLU after each normalization iff
    activation is True). -/
def SeparableConvBlock.blocks (n_filters k_size stride d_rate : ℕ)
    (activation : Bool) : List (Option Layer) :=
  [ if stride > 1 then
      some (.zeroPad (custom_pad.pad_s k_size d_rate) (custom_pad.pad_e k_size d_rate))
    else none,
    if activation = false then some .relu else none,
    some (.depthwise k_size stride (stride == 1) d_rate),
    some .batchNorm,
    if activation = true then some .relu else none,
    some (.conv n_filters 1 1 true 1),
    some .batchNorm,
    if activation = true then some .relu else none ]

/-- SeparableConvBlock.call (source 63-67): apply each non-None block in order. -/
def SeparableConvBlock.call (n_filters k_size stride d_rate : ℕ)
    (activation : Bool) (x : Shape) : Option Shape :=
  (SeparableConvBlock.blocks n_filters k_size stride d_rate activation).foldlM
    (fun y ob =>
      match ob with
      | none => some y
      | some l => l.apply y) x

/-- Configuration of one SeparableConvBlock inside an XceptionBlock. -/
structure SepConvCfg where
  n_filters : ℕ
  k_size : ℕ
  stride : ℕ
  d_rate : ℕ
  activation : Bool
deriving DecidableEq

/-- Run one configured SeparableConvBlock. -/
def SepConvCfg.call (cfg : SepConvCfg) (x : Shape) : Option Shape :=
  SeparableConvBlock.call cfg.n_filters cfg.k_size cfg.stride cfg.d_rate cfg.activation x

/-- XceptionBlock.sepconv_blocks (source lines 76-78): three separable blocks,
    kernel 3, the configured stride only at index 2, shared dilation and
    activation flag. -/
def XceptionBlock.sepconv_blocks (n_filters : List ℕ) (stride d_rate : ℕ)
    (activation : Bool) : List SepConvCfg :=
  (List.range 3).map fun i =>
    ⟨n_filters.getD i 0, 3, if i == 2 then stride else 1, d_rate, activation⟩

/-- The enumerate loop of XceptionBlock.call (source lines 90-93): run the
    separable blocks in order, capturing the output after index 1 as the side
    tap. -/
def XceptionBlock.runSeps : ℕ → List SepConvCfg → Shape → Option Shape →
    Option (Shape × Option Shape)
  | _, [], r, sk => some (r, sk)
  | i, cfg :: rest, r, sk => do
      let r' ← cfg.call r
      XceptionBlock.runSeps (i + 1) rest r' (if i == 1 then some r' else sk)

/-- XceptionBlock.call (source lines 87-107).  skip_type is Python None,
    "conv" (projected shortcut) or "sum" (identity shortcut); any other value
    leaves the output unbound (an error).  Returns the fused output and, when
    return_skip, the side tap. -/
def XceptionBlock.call (n_filters : List ℕ) (skip_type : Option String)
    (stride d_rate : ℕ) (activation return_skip : Bool) (x : Shape) :
    Option (Shape × Option Shape) := do
  let (residual, skO) ←
    XceptionBlock.runSeps 0
      (XceptionBlock.sepconv_blocks n_filters stride d_rate activation) x none
  let skip ← skO
  let out ←
    match skip_type with
    | some s =>
        if s = "conv" then do
          let o ← ConvBlock.call (n_filters.getLastD 0) 1 stride 1 x
          addLayer residual (bnShape o)
        else if s = "sum" then addLayer residual x
        else none
    | none => some residual
  some (out, if return_skip then some skip else none)

/-- One backbone stage: a BasicBlock or an XceptionBlock configuration. -/
inductive Stage where
  | basic (n_filters k_size stride : ℕ)
  | xcep (n_filters : List ℕ) (skip_type : Option String) (stride d_rate : ℕ)
      (activation return_skip : Bool)
deriving DecidableEq

/-- Shape action of one stage (the tap is some only when the stage is a
    tap-returning XceptionBlock). -/
def Stage.call : Stage → Shape → Option (Shape × Option Shape)
  | .basic n k s, x => do
      let y ← BasicBlock.call n k s x
      some (y, none)
  | .xcep f st s d a r, x => XceptionBlock.call f st s d a r x

/-- Source line 113: x_stride = 1 if output_stride == 8 else 2. -/
def XceptionBackbone.x_stride (output_stride : ℕ) : ℕ :=
  if output_stride == 8 then 1 else 2

/-- Source line 114: d_rates = (2,2,4) if output_stride == 8 else (1,1,2). -/
def XceptionBackbone.d_rates (output_stride : ℕ) : ℕ × ℕ × ℕ :=
  if output_stride == 8 then (2, 2, 4) else (1, 1, 2)

/-- Entry flow (source lines 116-122). -/
def XceptionBackbone.entry_flow (output_stride : ℕ) : List Stage :=
  [ .basic 32 3 2,
    .basic 64 3 1,
    .xcep [128, 128, 128] (some "conv") 2 1 false false,
    .xcep [256, 256, 256] (some "conv") 2 1 false true,
    .xcep [728, 728, 728] (some "conv") (XceptionBackbone.x_stride output_stride) 1 false false ]

/-- Middle flow (source lines 123-125). -/
def XceptionBackbone.middle_flow (output_stride : ℕ) : List Stage :=
  List.replicate 16
    (.xcep [728, 728, 728] (some "sum") 1 (XceptionBackbone.d_rates output_stride).1 false false)

/-- Exit flow (source lines 126-129). -/
def XceptionBackbone.exit_flow (output_stride : ℕ) : List Stage :=
  [ .xcep [728, 1024, 1024] (some "conv") 1 (XceptionBackbone.d_rates output_stride).2.1 false false,
    .xcep [1536, 1536, 2048] none 1 (XceptionBackbone.d_rates output_stride).2.2 true false ]

/-- XceptionBackbone.__init__ (source lines 111-129): pure configuration
    construction; the source contains no validation of output_stride and no
    failure path, so construction is a total function of output_stride. -/
def XceptionBackbone.init (output_stride : ℕ) : List Stage × List Stage × List Stage :=
  (XceptionBackbone.entry_flow output_stride,
   XceptionBackbone.middle_flow output_stride,
   XceptionBackbone.exit_flow output_stride)

/-- Entry-flow loop (source lines 132-136): at index 3 the result is
    destructured as (x, skip); at any other index a tuple result would be bound
    to x and poison the next layer application, an error. -/
def XceptionBackbone.runEntry : ℕ → List Stage → Shape → Option Shape →
    Option (Shape × Option Shape)
  | _, [], x, sk => some (x, sk)
  | i, st :: rest, x, sk => do
      let (y, tap) ← st.call x
      if i == 3 then
        match tap with
        | some t => XceptionBackbone.runEntry (i + 1) rest y (some t)
        | none => none
      else
        match tap with
        | some _ => none
        | none => XceptionBackbone.runEntry (i + 1) rest y sk

/-- Middle/exit-flow loop (source lines 138-142): plain sequential application. -/
def XceptionBackbone.runFlow : List Stage → Shape → Option Shape
  | [], x => some x
  | st :: rest, x => do
      let (y, tap) ← st.call x
      match tap with
      | some _ => none
      | none => XceptionBackbone.runFlow rest y

/-- XceptionBackbone.call (source lines 131-143): returns (deep feature map,
    skip feature map). -/
def XceptionBackbone.call (output_stride : ℕ) (x : Shape) : Option (Shape × Shape) := do
  let (y, skO) ←
    XceptionBackbone.runEntry 0 (XceptionBackbone.entry_flow output_stride) x none
  let skip ← skO
  let y ← XceptionBackbone.runFlow (XceptionBackbone.middle_flow output_stride) y
  let y ← XceptionBackbone.runFlow (XceptionBackbone.exit_flow output_stride) y
  some (y, skip)

/-- Source line 149: d_rates = (12,24,36) if output_stride == 8 else (6,12,18). -/
def ASPP.d_rates (output_stride : ℕ) : ℕ × ℕ × ℕ :=
  if output_stride == 8 then (12, 24, 36) else (6, 12, 18)

/-- ASPP branch (a): BasicBlock(256, 1, 1) (source line 151 / 165). -/
def ASPP.branch_1x1 (x : Shape) : Option Shape := BasicBlock.call 256 1 1 x

/-- ASPP branches (b)-(d): SeparableConvBlock(256, kernel 3, stride 1, given
    dilation, post-activation) (source lines 152-154 / 166-168). -/
def ASPP.branch_rate (d_rate : ℕ) (x : Shape) : Option Shape :=
  SeparableConvBlock.call 256 3 1 d_rate true x

/-- ASPP branch (e) (source lines 155-159, 171-175): global average pool,
    newaxis, BasicBlock(256,1,1), then bilinear resize back to the input
    feature map's height/width, read dynamically from x. -/
def ASPP.branch_pooling (x : Shape) : Option Shape := do
  let p := lambdaNewaxis (globalAveragePooling2D x)
  let p ← BasicBlock.call 256 1 1 p
  imageResize x.h x.w p

/-- ASPP.call (source lines 164-177): five branches, channel concatenation,
    1x1 fusion to 256 channels. -/
def ASPP.call (output_stride : ℕ) (x : Shape) : Option Shape := do
  let x1 ← ASPP.branch_1x1 x
  let x2 ← ASPP.branch_rate (ASPP.d_rates output_stride).1 x
  let x3 ← ASPP.branch_rate (ASPP.d_rates output_stride).2.1 x
  let x4 ← ASPP.branch_rate (ASPP.d_rates output_stride).2.2 x
  let x5 ← ASPP.branch_pooling x
  let xc ← concatChannels [x1, x2, x3, x4, x5]
  BasicBlock.call 256 1 1 xc

/-- The elementwise sigmoid layer is shape-preserving (source lines 190/204);
    its value action is modelled by activationSigmoid below. -/
def sigmoidShape (x : Shape) : Shape := x

/-- DeepLabV3Decoder.call (source lines 192-204): resize to the skip map's
    resolution, project the skip map to 48 channels, concatenate, two
    separable refinements, 1x1 projection to n_classes, resize to the input
    resolution, sigmoid. -/
def DeepLabV3Decoder.call (n_classes : ℕ) (x skip : Shape) (input_shape : ℕ × ℕ) :
    Option Shape := do
  let x ← imageResize skip.h skip.w x
  let skip ← BasicBlock.call 48 1 1 skip
  let x ← concatChannels [x, skip]
  let x ← SeparableConvBlock.call 256 3 1 1 true x
  let x ← SeparableConvBlock.call 256 3 1 1 true x
  let x ← conv2D n_classes 1 1 true 1 x
  let x ← imageResize input_shape.1 input_shape.2 x
  some (sigmoidShape x)

/-- DeepLabV3pXc.__init__ (source lines 208-212): backbone, ASPP and decoder
    configuration; no validation, total in output_stride and n_classes. -/
def DeepLabV3pXc.init (output_stride n_classes : ℕ) :
    (List Stage × List Stage × List Stage) × (ℕ × ℕ × ℕ) × ℕ :=
  (XceptionBackbone.init output_stride, ASPP.d_rates output_stride, n_classes)

/-- DeepLabV3pXc.call (source lines 214-220): records the input's spatial
    resolution, then Backbone, ASPP, Decoder. -/
def DeepLabV3pXc.call (output_stride n_classes : ℕ) (x : Shape) : Option Shape := do
  let input_shape := (x.h, x.w)
  let (y, skip) ← XceptionBackbone.call output_stride x
  let y ← ASPP.call output_stride y
  DeepLabV3Decoder.call n_classes y skip input_shape

/-- Real-valued 4-D tensor over NHWC indices (value-level model). -/
def Tensor4 : Type := ℕ × ℕ × ℕ × ℕ → ℝ

/-- The sigmoid function computed by layers.Activation("sigmoid"). -/
noncomputable def sigmoid (z : ℝ) : ℝ := 1 / (1 + Real.exp (-z))

/-- Elementwise action of the decoder's final sigmoid layer (source line 204). -/
noncomputable def activationSigmoid (t : Tensor4) : Tensor4 :=
  fun i => sigmoid (t i)

/-- Module-level names bound in deeplabv3p.py after executing lines 1-204:
    the two imports (lines 1-2) and the top-level def/class statements. -/
def moduleBindings : List String :=
  ["tf", "layers", "custom_pad", "ConvBlock", "BasicBlock", "SeparableConvBlock",
   "XceptionBlock", "XceptionBackbone", "ASPP", "DeepLabV3Decoder"]

/-- Python builtins referenced by the module (Model and Input are Keras names,
    not builtins, and appear in no import statement of the module). -/
def pythonBuiltins : List String :=
  ["print", "range", "enumerate", "super", "len"]

/-- A module-level free name resolves iff it is a module binding or a builtin. -/
def resolves (n : String) : Bool :=
  moduleBindings.contains n || pythonBuiltins.contains n

/-- Free name evaluated by the class statement at line 207: its base-class
    expression `Model`, evaluated when the class statement executes at
    module-import time. -/
def deepLabV3pXcBaseClassName : String := "Model"

/-- Executing line 207 raises NameError iff the base expression fails to
    resolve. -/
def importRaisesNameError : Bool := !(resolves deepLabV3pXcBaseClassName)

/-- The spec's claimed padding behaviour (C4 wording): each spatial dimension
    padded with pad_s zeros before and pad_e zeros after, so each dimension
    grows by pad_s + pad_e.  Named definition following the spec's words, to
    be compared with custom_pad, which follows the source. -/
def claimedPadShape (k_size d_rate : ℕ) (x : Shape) : Shape :=
  ⟨x.batch,
   x.h + custom_pad.pad_s k_size d_rate + custom_pad.pad_e k_size d_rate,
   x.w + custom_pad.pad_s k_size d_rate + custom_pad.pad_e k_size d_rate,
   x.c⟩

/-- Claim C2: the module imports only tensorflow and tensorflow.keras.layers,
    so the name `Model` used as the base class of DeepLabV3pXc (line 207) is
    unbound at module level; evaluating the class statement at import time
    raises NameError before any model can be instantiated (and `Input`, used
    by get_summary, is unbound as well). -/
theorem c2_import_raises_name_error :
    importRaisesNameError = true
    ∧ resolves "Model" = false
    ∧ resolves "Input" = false := by
  decide

/-- Counterexample to claim C3: constructing the Backbone (and the ASPP, and
    the Segmentation Model) with the invalid output_stride 7 does not fail; it
    succeeds and yields exactly the configuration of output_stride 16 — a
    silent substitution of the default stride/dilation schedule. -/
theorem c3_counterexample_silent_default :
    XceptionBackbone.init 7 = XceptionBackbone.init 16
    ∧ ASPP.d_rates 7 = ASPP.d_rates 16
    ∧ DeepLabV3pXc.init 7 5 = DeepLabV3pXc.init 16 5 := by
  exact ⟨rfl, rfl, rfl⟩

/-- Claim C3 as amended: construction never fails; every output_stride other
    than 8 — valid 16 or invalid alike — silently receives the
    output_stride=16 schedule (last-stage stride 2, backbone dilations
    (1,1,2), ASPP rates (6,12,18)). -/
theorem c3_amended_no_validation (os : ℕ) (h : os ≠ 8) :
    XceptionBackbone.x_stride os = 2
    ∧ XceptionBackbone.d_rates os = (1, 1, 2)
    ∧ ASPP.d_rates os = (6, 12, 18)
    ∧ XceptionBackbone.init os = XceptionBackbone.init 16
    ∧ ∀ n_classes, DeepLabV3pXc.init os n_classes = DeepLabV3pXc.init 16 n_classes := by
  have hb : (os == 8) = false := beq_eq_false_iff_ne.mpr h
  refine ⟨?_, ?_, ?_, ?_, ?_⟩ <;>
    simp [XceptionBackbone.x_stride, XceptionBackbone.d_rates, ASPP.d_rates,
      XceptionBackbone.init, XceptionBackbone.entry_flow, XceptionBackbone.middle_flow,
      XceptionBackbone.exit_flow, DeepLabV3pXc.init, hb]

/-- Witness for c3_amended_no_validation at the concrete invalid value 7. -/
theorem c3_amended_no_validation_witness :
    XceptionBackbone.x_stride 7 = 2
    ∧ XceptionBackbone.d_rates 7 = (1, 1, 2)
    ∧ ASPP.d_rates 7 = (6, 12, 18)
    ∧ XceptionBackbone.init 7 = XceptionBackbone.init 16
    ∧ ∀ n_classes, DeepLabV3pXc.init 7 n_classes = DeepLabV3pXc.init 16 n_classes := by
  exact c3_amended_no_validation 7 (by decide)

/-- Counterexample to claim C4: at kernel 2, dilation 1 the calculator gives
    pad_s = 0, pad_e = 1; the code (ZeroPadding2D with a 2-tuple) leaves the
    height at 5 and pads the width to 7, whereas padding each spatial
    dimension with pad_s zeros before and pad_e after would give 6 and 6. -/
theorem c4_counterexample_asymmetric_split :
    custom_pad 2 1 ⟨1, 5, 5, 3⟩ = ⟨1, 5, 7, 3⟩
    ∧ claimedPadShape 2 1 ⟨1, 5, 5, 3⟩ = ⟨1, 6, 6, 3⟩
    ∧ custom_pad 2 1 ⟨1, 5, 5, 3⟩ ≠ claimedPadShape 2 1 ⟨1, 5, 5, 3⟩ := by
  decide

/-- Claim C4 as amended: for every k ≥ 1 and d ≥ 1 the Padding Calculator
    computes s = k + (k-1)(d-1), pad_s = ⌊(s-1)/2⌋ and pad_e = (s-1) - pad_s,
    but applies them as ZeroPadding2D((pad_s, pad_e)): the height is padded
    symmetrically by pad_s on each side and the width symmetrically by pad_e
    on each side.  Whenever s is odd — in particular for every kernel-3 use —
    pad_s = pad_e, and the per-dimension (before, after) = (pad_s, pad_e)
    reading coincides with the code; the three quoted kernel-3 examples
    (1,1), (2,2), (12,12) all hold. -/
theorem c4_amended_symmetric_padding (k d : ℕ) (hk : 1 ≤ k) (hd : 1 ≤ d) :
    custom_pad.pad_s k d = (effSpan k d - 1) / 2
    ∧ custom_pad.pad_e k d = (effSpan k d - 1) - (effSpan k d - 1) / 2
    ∧ (∀ x : Shape, custom_pad k d x =
        ⟨x.batch, x.h + 2 * custom_pad.pad_s k d, x.w + 2 * custom_pad.pad_e k d, x.c⟩)
    ∧ (Odd (effSpan k d) →
        custom_pad.pad_s k d = custom_pad.pad_e k d
        ∧ ∀ x : Shape, custom_pad k d x = claimedPadShape k d x)
    ∧ custom_pad.pad_s 3 1 = 1 ∧ custom_pad.pad_e 3 1 = 1
    ∧ custom_pad.pad_s 3 2 = 2 ∧ custom_pad.pad_e 3 2 = 2
    ∧ custom_pad.pad_s 3 12 = 12 ∧ custom_pad.pad_e 3 12 = 12 := by
  refine ⟨rfl, rfl, fun x => rfl, ?_, by decide, by decide, by decide, by decide,
    by decide, by decide⟩
  intro hodd
  have hse : custom_pad.pad_s k d = custom_pad.pad_e k d := by
    obtain ⟨m, hm⟩ := hodd
    simp only [custom_pad.pad_s, custom_pad.pad_e, hm]
    omega
  refine ⟨hse, fun x => ?_⟩
  unfold custom_pad zeroPadding2D claimedPadShape
  rw [hse]
  simp [Shape.mk.injEq]
  omega

/-- Witness for c4_amended_symmetric_padding at k = 3, d = 2 (odd span 5). -/
theorem c4_amended_symmetric_padding_witness :
    custom_pad.pad_s 3 2 = custom_pad.pad_e 3 2
    ∧ custom_pad 3 2 ⟨1, 5, 5, 3⟩ = claimedPadShape 3 2 ⟨1, 5, 5, 3⟩ := by
  have h := (c4_amended_symmetric_padding 3 2 (by decide) (by decide)).2.2.2.1
    (by decide)
  exact ⟨h.1, h.2 ⟨1, 5, 5, 3⟩⟩

/-- Claim C6: the backbone topology is fixed by output_stride — last
    entry-flow stage stride 1 at output_stride 8 and 2 at 16; dilation triple
    (2,2,4) at 8 and (1,1,2) at 16; the middle flow is exactly 16 repetitions
    of XceptionBlock([728,728,728], additive, stride 1, first rate); the exit
    flow is XceptionBlock([728,1024,1024], projected, stride 1, second rate)
    then XceptionBlock([1536,1536,2048], no residual, stride 1, third rate,
    post-activation) returning no side tap. -/
theorem c6_backbone_topology :
    XceptionBackbone.x_stride 8 = 1 ∧ XceptionBackbone.x_stride 16 = 2
    ∧ XceptionBackbone.d_rates 8 = (2, 2, 4) ∧ XceptionBackbone.d_rates 16 = (1, 1, 2)
    ∧ (XceptionBackbone.entry_flow 8).getLastD (.basic 0 0 0)
        = .xcep [728, 728, 728] (some "conv") 1 1 false false
    ∧ (XceptionBackbone.entry_flow 16).getLastD (.basic 0 0 0)
        = .xcep [728, 728, 728] (some "conv") 2 1 false false
    ∧ XceptionBackbone.middle_flow 8
        = List.replicate 16 (.xcep [728, 728, 728] (some "sum") 1 2 false false)
    ∧ XceptionBackbone.middle_flow 16
        = List.replicate 16 (.xcep [728, 728, 728] (some "sum") 1 1 false false)
    ∧ XceptionBackbone.exit_flow 8
        = [.xcep [728, 1024, 1024] (some "conv") 1 2 false false,
           .xcep [1536, 1536, 2048] none 1 4 true false]
    ∧ XceptionBackbone.exit_flow 16
        = [.xcep [728, 1024, 1024] (some "conv") 1 1 false false,
           .xcep [1536, 1536, 2048] none 1 2 true false] := by
  decide

/-- Claim C9: a Separable Conv Block applies exactly one activation placement.
    With the flag false the effective layer sequence is a single ReLU before
    the depthwise convolution and none afterwards; with the flag true it is a
    ReLU after the depthwise convolution's batch normalization and one after
    the pointwise convolution's batch normalization, and none before the
    depthwise step (the optional explicit padding precedes everything when
    stride > 1). -/
theorem c9_separable_activation_placement (n k s d : ℕ) :
    (SeparableConvBlock.blocks n k s d false).filterMap id =
      (if 1 < s then [Layer.zeroPad (custom_pad.pad_s k d) (custom_pad.pad_e k d)]
       else [])
        ++ [Layer.relu, Layer.depthwise k s (s == 1) d, Layer.batchNorm,
            Layer.conv n 1 1 true 1, Layer.batchNorm]
    ∧ (SeparableConvBlock.blocks n k s d true).filterMap id =
      (if 1 < s then [Layer.zeroPad (custom_pad.pad_s k d) (custom_pad.pad_e k d)]
       else [])
        ++ [Layer.depthwise k s (s == 1) d, Layer.batchNorm, Layer.relu,
            Layer.conv n 1 1 true 1, Layer.batchNorm, Layer.relu] := by
  by_cases hs : 1 < s <;> simp [SeparableConvBlock.blocks, hs]

/-- Shared lemma: a "same"-padded stride-1 convolution preserves the spatial
    size and sets the channel count. -/
theorem conv2D_same_s1 (f k B h w c : ℕ) :
    conv2D f k 1 true 1 ⟨B, h, w, c⟩ = some ⟨B, h, w, f⟩ := by
  simp [conv2D, ceilDivStride]

/-- Shared lemma: BasicBlock at stride 1. -/
theorem BasicBlock_s1 (n k B h w c : ℕ) :
    BasicBlock.call n k 1 ⟨B, h, w, c⟩ = some ⟨B, h, w, n⟩ := by
  simp [BasicBlock.call, conv2D, ceilDivStride, bnShape, reluShape]

/-- Shared lemma: BasicBlock at stride 2 ("same" padding, ceil halving). -/
theorem BasicBlock_s2 (n k B h w c : ℕ) :
    BasicBlock.call n k 2 ⟨B, h, w, c⟩ = some ⟨B, (h + 1) / 2, (w + 1) / 2, n⟩ := by
  simp [BasicBlock.call, conv2D, ceilDivStride, bnShape, reluShape]

/-- Shared lemma: SeparableConvBlock at kernel 3, stride 1 preserves the
    spatial size (any dilation, either activation placement). -/
theorem sep_s1 (n d : ℕ) (act : Bool) (B h w c : ℕ) :
    SeparableConvBlock.call n 3 1 d act ⟨B, h, w, c⟩ = some ⟨B, h, w, n⟩ := by
  cases act <;>
    simp [SeparableConvBlock.call, SeparableConvBlock.blocks, Layer.apply,
      depthwiseConv2D, conv2D, ceilDivStride, bnShape, reluShape]

/-- Shared lemma: SeparableConvBlock at kernel 3, stride 2, dilation 1:
    explicit (1,1) padding then a valid convolution, a ceil halving. -/
theorem sep_s2_d1 (n : ℕ) (act : Bool) (B h w c : ℕ) :
    SeparableConvBlock.call n 3 2 1 act ⟨B, h, w, c⟩
      = some ⟨B, (h + 1) / 2, (w + 1) / 2, n⟩ := by
  cases act <;>
    · simp only [SeparableConvBlock.call, SeparableConvBlock.blocks, Layer.apply,
        depthwiseConv2D, conv2D, ceilDivStride, bnShape, reluShape, custom_pad.pad_s,
        custom_pad.pad_e, effSpan, zeroPadding2D, validOut, List.foldlM]
      norm_num
      constructor <;> omega

/-- Shared lemma: ConvBlock with kernel 1, stride 1, dilation 1. -/
theorem ConvBlock_k1_s1 (n B h w c : ℕ) :
    ConvBlock.call n 1 1 1 ⟨B, h, w, c⟩ = some ⟨B, h, w, n⟩ := by
  simp [ConvBlock.call, conv2D, ceilDivStride]

/-- Shared lemma: ConvBlock with kernel 1, stride 2, dilation 1 (zero explicit
    padding, valid mode, ceil halving). -/
theorem ConvBlock_k1_s2 (n B h w c : ℕ) :
    ConvBlock.call n 1 2 1 ⟨B, h, w, c⟩ = some ⟨B, (h + 1) / 2, (w + 1) / 2, n⟩ := by
  simp only [ConvBlock.call, custom_pad, custom_pad.pad_s, custom_pad.pad_e, effSpan,
    zeroPadding2D, conv2D, validOut, ceilDivStride]
  norm_num

/-- Shared lemma: the three-element runSeps loop unrolled. -/
theorem runSeps_three (c0 c1 c2 : SepConvCfg) (x : Shape) :
    XceptionBlock.runSeps 0 [c0, c1, c2] x none
      = (do
          let r1 ← c0.call x
          let r2 ← c1.call r1
          let r3 ← c2.call r2
          some (r3, some r2)) := by
  cases h0 : c0.call x with
  | none => simp [XceptionBlock.runSeps, h0]
  | some r1 =>
    cases h1 : c1.call r1 with
    | none => simp [XceptionBlock.runSeps, h0, h1]
    | some r2 =>
      cases h2 : c2.call r2 with
      | none => simp [XceptionBlock.runSeps, h0, h1, h2]
      | some r3 => simp [XceptionBlock.runSeps, h0, h1, h2]

/-- Shared lemma: the comprehension of source line 77 produces kernel-3 blocks
    at strides (1, 1, stride). -/
theorem sepconv_blocks_eq (f0 f1 f2 st d : ℕ) (act : Bool) :
    XceptionBlock.sepconv_blocks [f0, f1, f2] st d act
      = [⟨f0, 3, 1, d, act⟩, ⟨f1, 3, 1, d, act⟩, ⟨f2, 3, st, d, act⟩] := by
  rfl

/-- Shared lemma: projected-skip XceptionBlock at stride 1 (shape level). -/
theorem xcep_conv_s1 (f0 f1 f2 d : ℕ) (act : Bool) (B h w c : ℕ) :
    XceptionBlock.call [f0, f1, f2] (some "conv") 1 d act false ⟨B, h, w, c⟩
      = some (⟨B, h, w, f2⟩, none) := by
  simp [XceptionBlock.call, sepconv_blocks_eq, runSeps_three, SepConvCfg.call,
    sep_s1, ConvBlock_k1_s1, bnShape, addLayer, List.getLastD]

/-- Shared lemma: projected-skip XceptionBlock at stride 2, dilation 1, equal
    filter counts: ceil-halves the spatial size; the side tap is the
    pre-stride resolution. -/
theorem xcep_conv_s2_d1 (f : ℕ) (act rs : Bool) (B h w c : ℕ) :
    XceptionBlock.call [f, f, f] (some "conv") 2 1 act rs ⟨B, h, w, c⟩
      = some (⟨B, (h + 1) / 2, (w + 1) / 2, f⟩,
              if rs then some ⟨B, h, w, f⟩ else none) := by
  cases rs <;>
    simp [XceptionBlock.call, sepconv_blocks_eq, runSeps_three, SepConvCfg.call,
      sep_s1, sep_s2_d1, ConvBlock_k1_s2, bnShape, addLayer, List.getLastD]

/-- Shared lemma: additive-skip XceptionBlock at stride 1 with matching
    channel count: shape-preserving. -/
theorem xcep_sum_s1 (f d : ℕ) (act : Bool) (B h w : ℕ) :
    XceptionBlock.call [f, f, f] (some "sum") 1 d act false ⟨B, h, w, f⟩
      = some (⟨B, h, w, f⟩, none) := by
  simp [XceptionBlock.call, sepconv_blocks_eq, runSeps_three, SepConvCfg.call,
    sep_s1, addLayer]

/-- Shared lemma: no-residual XceptionBlock at stride 1. -/
theorem xcep_none_s1 (f0 f1 f2 d : ℕ) (act : Bool) (B h w c : ℕ) :
    XceptionBlock.call [f0, f1, f2] none 1 d act false ⟨B, h, w, c⟩
      = some (⟨B, h, w, f2⟩, none) := by
  simp [XceptionBlock.call, sepconv_blocks_eq, runSeps_three, SepConvCfg.call,
    sep_s1]

/-- Shared lemma: the middle flow (replicated additive blocks on 728-channel
    input) is shape-preserving. -/
theorem runFlow_middle (n d B h w : ℕ) :
    XceptionBackbone.runFlow
        (List.replicate n (.xcep [728, 728, 728] (some "sum") 1 d false false))
        ⟨B, h, w, 728⟩
      = some ⟨B, h, w, 728⟩ := by
  induction n with
  | zero => simp [XceptionBackbone.runFlow]
  | succ m ih =>
      simp [List.replicate_succ, XceptionBackbone.runFlow, Stage.call,
        xcep_sum_s1, ih]

/-- Shared lemma: the exit flow preserves the spatial size and widens to 2048
    channels. -/
theorem runFlow_exit (d1 d2 B h w c : ℕ) :
    XceptionBackbone.runFlow
        [.xcep [728, 1024, 1024] (some "conv") 1 d1 false false,
         .xcep [1536, 1536, 2048] none 1 d2 true false]
        ⟨B, h, w, c⟩
      = some ⟨B, h, w, 2048⟩ := by
  simp [XceptionBackbone.runFlow, Stage.call, xcep_conv_s1, xcep_none_s1]

/-- Shared lemma: the entry flow with last-stage stride 1 (output_stride 8):
    three ceil-halvings, skip tap at the second one. -/
theorem runEntry_flow_s1 (B h w c : ℕ) :
    XceptionBackbone.runEntry 0
        [.basic 32 3 2, .basic 64 3 1,
         .xcep [128, 128, 128] (some "conv") 2 1 false false,
         .xcep [256, 256, 256] (some "conv") 2 1 false true,
         .xcep [728, 728, 728] (some "conv") 1 1 false false]
        ⟨B, h, w, c⟩ none
      = some (⟨B, (((h + 1) / 2 + 1) / 2 + 1) / 2, (((w + 1) / 2 + 1) / 2 + 1) / 2, 728⟩,
              some ⟨B, ((h + 1) / 2 + 1) / 2, ((w + 1) / 2 + 1) / 2, 256⟩) := by
  simp [XceptionBackbone.runEntry, Stage.call, BasicBlock_s2, BasicBlock_s1,
    xcep_conv_s2_d1, xcep_conv_s1]

/-- Shared lemma: the entry flow with last-stage stride 2 (output_stride 16):
    four ceil-halvings, skip tap at the second one. -/
theorem runEntry_flow_s2 (B h w c : ℕ) :
    XceptionBackbone.runEntry 0
        [.basic 32 3 2, .basic 64 3 1,
         .xcep [128, 128, 128] (some "conv") 2 1 false false,
         .xcep [256, 256, 256] (some "conv") 2 1 false true,
         .xcep [728, 728, 728] (some "conv") 2 1 false false]
        ⟨B, h, w, c⟩ none
      = some (⟨B, ((((h + 1) / 2 + 1) / 2 + 1) / 2 + 1) / 2,
                ((((w + 1) / 2 + 1) / 2 + 1) / 2 + 1) / 2, 728⟩,
              some ⟨B, ((h + 1) / 2 + 1) / 2, ((w + 1) / 2 + 1) / 2, 256⟩) := by
  simp [XceptionBackbone.runEntry, Stage.call, BasicBlock_s2, BasicBlock_s1,
    xcep_conv_s2_d1]

/-- Shared lemma: the whole middle flow is shape-preserving on 728-channel
    input, for any output_stride. -/
theorem runFlow_middle_flow (os B h w : ℕ) :
    XceptionBackbone.runFlow (XceptionBackbone.middle_flow os) ⟨B, h, w, 728⟩
      = some ⟨B, h, w, 728⟩ := by
  unfold XceptionBackbone.middle_flow
  exact runFlow_middle 16 (XceptionBackbone.d_rates os).1 B h w

/-- Shared lemma: the whole exit flow preserves the spatial size and widens to
    2048 channels, for any output_stride. -/
theorem runFlow_exit_flow (os B h w c : ℕ) :
    XceptionBackbone.runFlow (XceptionBackbone.exit_flow os) ⟨B, h, w, c⟩
      = some ⟨B, h, w, 2048⟩ := by
  unfold XceptionBackbone.exit_flow
  exact runFlow_exit (XceptionBackbone.d_rates os).2.1 (XceptionBackbone.d_rates os).2.2 B h w c

/-- Shared lemma: the backbone at output_stride 8 on a (4a, 4b) input: deep
    map at ceil(a/2) spatial size (the last entry stage runs at stride 1),
    skip map at exactly (a, b) with 256 channels. -/
theorem backbone_4a_8 (B a b c : ℕ) :
    XceptionBackbone.call 8 ⟨B, 4 * a, 4 * b, c⟩
      = some (⟨B, (a + 1) / 2, (b + 1) / 2, 2048⟩, ⟨B, a, b, 256⟩) := by
  have e4 : ∀ m : ℕ, (4 * m + 1) / 2 = 2 * m := fun m => by omega
  have e2 : ∀ m : ℕ, (2 * m + 1) / 2 = m := fun m => by omega
  simp [XceptionBackbone.call, XceptionBackbone.entry_flow, XceptionBackbone.x_stride,
    runEntry_flow_s1, e4, e2, runFlow_middle_flow, runFlow_exit_flow]

/-- Shared lemma: the backbone at output_stride 16 on a (4a, 4b) input: the
    skip map is still exactly (a, b) with 256 channels. -/
theorem backbone_4a_16 (B a b c : ℕ) :
    XceptionBackbone.call 16 ⟨B, 4 * a, 4 * b, c⟩
      = some (⟨B, ((a + 1) / 2 + 1) / 2, ((b + 1) / 2 + 1) / 2, 2048⟩, ⟨B, a, b, 256⟩) := by
  have e4 : ∀ m : ℕ, (4 * m + 1) / 2 = 2 * m := fun m => by omega
  have e2 : ∀ m : ℕ, (2 * m + 1) / 2 = m := fun m => by omega
  simp [XceptionBackbone.call, XceptionBackbone.entry_flow, XceptionBackbone.x_stride,
    runEntry_flow_s2, e4, e2, runFlow_middle_flow, runFlow_exit_flow]

/-- Shared lemma: the backbone at output_stride 8 on a (32a, 32b) input. -/
theorem backbone_32a_8 (B a b c : ℕ) :
    XceptionBackbone.call 8 ⟨B, 32 * a, 32 * b, c⟩
      = some (⟨B, 4 * a, 4 * b, 2048⟩, ⟨B, 8 * a, 8 * b, 256⟩) := by
  have h := backbone_4a_8 B (8 * a) (8 * b) c
  rw [show (4 : ℕ) * (8 * a) = 32 * a by ring, show (4 : ℕ) * (8 * b) = 32 * b by ring,
    show ((8 : ℕ) * a + 1) / 2 = 4 * a by omega,
    show ((8 : ℕ) * b + 1) / 2 = 4 * b by omega] at h
  exact h

/-- Shared lemma: the backbone at output_stride 16 on a (32a, 32b) input. -/
theorem backbone_32a_16 (B a b c : ℕ) :
    XceptionBackbone.call 16 ⟨B, 32 * a, 32 * b, c⟩
      = some (⟨B, 2 * a, 2 * b, 2048⟩, ⟨B, 8 * a, 8 * b, 256⟩) := by
  have h := backbone_4a_16 B (8 * a) (8 * b) c
  rw [show (4 : ℕ) * (8 * a) = 32 * a by ring, show (4 : ℕ) * (8 * b) = 32 * b by ring,
    show ((8 : ℕ) * a + 1) / 2 = 4 * a by omega,
    show ((8 : ℕ) * b + 1) / 2 = 4 * b by omega,
    show ((4 : ℕ) * a + 1) / 2 = 2 * a by omega,
    show ((4 : ℕ) * b + 1) / 2 = 2 * b by omega] at h
  exact h

/-- Shared lemma: ASPP on any nonempty feature map yields 256 channels at the
    input's spatial size, for every output_stride. -/
theorem ASPP_call_eq (os B h w c : ℕ) (hh : h ≠ 0) (hw : w ≠ 0) :
    ASPP.call os ⟨B, h, w, c⟩ = some ⟨B, h, w, 256⟩ := by
  simp [ASPP.call, ASPP.branch_1x1, ASPP.branch_rate, ASPP.branch_pooling,
    BasicBlock_s1, sep_s1, lambdaNewaxis, globalAveragePooling2D, imageResize,
    hh, hw, concatChannels]

/-- Shared lemma: the decoder on nonempty maps: resize to the skip size,
    fuse, refine, project to n classes, resize to the recorded input size. -/
theorem decoder_call_eq (n B h w c hs ws cs H W : ℕ)
    (hh : h ≠ 0) (hw : w ≠ 0) (hhs : hs ≠ 0) (hws : ws ≠ 0)
    (hH : H ≠ 0) (hW : W ≠ 0) :
    DeepLabV3Decoder.call n ⟨B, h, w, c⟩ ⟨B, hs, ws, cs⟩ (H, W)
      = some ⟨B, H, W, n⟩ := by
  simp [DeepLabV3Decoder.call, imageResize, hh, hw, hhs, hws, hH, hW,
    BasicBlock_s1, concatChannels, sep_s1, conv2D_same_s1, sigmoidShape]

/-- Shared lemma: the sigmoid always lies in [0, 1]. -/
theorem sigmoid_bounds (z : ℝ) : 0 ≤ sigmoid z ∧ sigmoid z ≤ 1 := by
  have he : 0 < Real.exp (-z) := Real.exp_pos _
  constructor
  · unfold sigmoid
    positivity
  · unfold sigmoid
    rw [div_le_one (by linarith)]
    linarith

/-- Claim C7: for every input of spatial size (4a, 4b), the skip feature map
    returned by the Backbone has spatial resolution exactly (a, b) and, per
    the entry-flow stage-4 configuration, 256 channels — for both valid
    output strides. -/
theorem c7_skip_quarter_resolution (os B a b c : ℕ) (hos : os = 8 ∨ os = 16) :
    (XceptionBackbone.call os ⟨B, 4 * a, 4 * b, c⟩).map Prod.snd
      = some ⟨B, a, b, 256⟩ := by
  rcases hos with rfl | rfl
  · rw [backbone_4a_8]
    rfl
  · rw [backbone_4a_16]
    rfl

/-- Witness for c7_skip_quarter_resolution: a (1, 256, 256, 3) input yields a
    (1, 64, 64, 256) skip feature map. -/
theorem c7_skip_quarter_resolution_witness :
    (XceptionBackbone.call 8 ⟨1, 4 * 64, 4 * 64, 3⟩).map Prod.snd
      = some ⟨1, 64, 64, 256⟩ :=
  c7_skip_quarter_resolution 8 1 64 64 3 (Or.inl rfl)

/-- Claim C8: each of the five ASPP branches produces exactly 256 channels at
    the input feature map's (dynamically read) spatial size, regardless of
    output_stride; the dilation triples are (12,24,36) at output_stride 8 and
    (6,12,18) at 16; the concatenation has exactly 1280 channels; and the
    final 1x1 fusion produces exactly 256 channels. -/
theorem c8_aspp_channel_counts (B h w c : ℕ) (hh : h ≠ 0) (hw : w ≠ 0) :
    ASPP.d_rates 8 = (12, 24, 36) ∧ ASPP.d_rates 16 = (6, 12, 18)
    ∧ ASPP.branch_1x1 ⟨B, h, w, c⟩ = some ⟨B, h, w, 256⟩
    ∧ (∀ r, ASPP.branch_rate r ⟨B, h, w, c⟩ = some ⟨B, h, w, 256⟩)
    ∧ ASPP.branch_pooling ⟨B, h, w, c⟩ = some ⟨B, h, w, 256⟩
    ∧ concatChannels [⟨B, h, w, 256⟩, ⟨B, h, w, 256⟩, ⟨B, h, w, 256⟩,
        ⟨B, h, w, 256⟩, ⟨B, h, w, 256⟩] = some ⟨B, h, w, 1280⟩
    ∧ ∀ os, ASPP.call os ⟨B, h, w, c⟩ = some ⟨B, h, w, 256⟩ := by
  refine ⟨rfl, rfl, ?_, ?_, ?_, ?_, fun os => ASPP_call_eq os B h w c hh hw⟩
  · simpa [ASPP.branch_1x1] using BasicBlock_s1 256 1 B h w c
  · intro r
    simpa [ASPP.branch_rate] using sep_s1 256 r true B h w c
  · simp [ASPP.branch_pooling, lambdaNewaxis, globalAveragePooling2D,
      BasicBlock_s1, imageResize, hh, hw]
  · simp [concatChannels]

/-- Witness for c8_aspp_channel_counts on a concrete (1, 2, 3, 2048) map. -/
theorem c8_aspp_channel_counts_witness :
    ASPP.call 8 ⟨1, 2, 3, 2048⟩ = some ⟨1, 2, 3, 256⟩
    ∧ ASPP.call 16 ⟨1, 2, 3, 2048⟩ = some ⟨1, 2, 3, 256⟩
    ∧ ASPP.branch_pooling ⟨1, 2, 3, 2048⟩ = some ⟨1, 2, 3, 256⟩ := by
  have h := c8_aspp_channel_counts 1 2 3 2048 (by decide) (by decide)
  exact ⟨h.2.2.2.2.2.2 8, h.2.2.2.2.2.2 16, h.2.2.2.2.1⟩

/-- Claim C1: for both valid output strides, any n_classes ≥ 1 and any input
    of shape (B, 32a, 32b, 3) with a, b ≥ 1, the model's forward pass yields
    shape (B, 32a, 32b, n_classes); the final step is a bilinear resize to the
    input's recorded height/width followed by an elementwise sigmoid, whose
    values always lie in [0, 1]. -/
theorem c1_model_output_shape_and_range (os n B a b : ℕ)
    (hos : os = 8 ∨ os = 16) (hn : 1 ≤ n) (ha : 1 ≤ a) (hb : 1 ≤ b) :
    DeepLabV3pXc.call os n ⟨B, 32 * a, 32 * b, 3⟩ = some ⟨B, 32 * a, 32 * b, n⟩
    ∧ ∀ (t : Tensor4) (i : ℕ × ℕ × ℕ × ℕ),
        0 ≤ activationSigmoid t i ∧ activationSigmoid t i ≤ 1 := by
  constructor
  · have h4a : (4 : ℕ) * a ≠ 0 := by omega
    have h4b : (4 : ℕ) * b ≠ 0 := by omega
    have h2a : (2 : ℕ) * a ≠ 0 := by omega
    have h2b : (2 : ℕ) * b ≠ 0 := by omega
    have h8a : (8 : ℕ) * a ≠ 0 := by omega
    have h8b : (8 : ℕ) * b ≠ 0 := by omega
    have h32a : (32 : ℕ) * a ≠ 0 := by omega
    have h32b : (32 : ℕ) * b ≠ 0 := by omega
    rcases hos with rfl | rfl
    · simp [DeepLabV3pXc.call, backbone_32a_8,
        ASPP_call_eq 8 B (4 * a) (4 * b) 2048 h4a h4b,
        decoder_call_eq n B (4 * a) (4 * b) 256 (8 * a) (8 * b) 256 (32 * a) (32 * b)
          h4a h4b h8a h8b h32a h32b]
    · simp [DeepLabV3pXc.call, backbone_32a_16,
        ASPP_call_eq 16 B (2 * a) (2 * b) 2048 h2a h2b,
        decoder_call_eq n B (2 * a) (2 * b) 256 (8 * a) (8 * b) 256 (32 * a) (32 * b)
          h2a h2b h8a h8b h32a h32b]
  · intro t i
    exact sigmoid_bounds (t i)

/-- Witness for c1_model_output_shape_and_range at output_stride 8,
    n_classes 1, batch 1, a = b = 1 (a 32 x 32 image), with the sigmoid bound
    instantiated at the zero tensor and the origin index. -/
theorem c1_model_output_shape_and_range_witness :
    DeepLabV3pXc.call 8 1 ⟨1, 32 * 1, 32 * 1, 3⟩ = some ⟨1, 32 * 1, 32 * 1, 1⟩
    ∧ 0 ≤ activationSigmoid (fun j => (0 : ℝ)) (0, 0, 0, 0)
    ∧ activationSigmoid (fun j => (0 : ℝ)) (0, 0, 0, 0) ≤ 1 := by
  have h := c1_model_output_shape_and_range 8 1 1 1 1 (Or.inl rfl)
    (by decide) (by decide) (by decide)
  exact ⟨h.1, (h.2 (fun j => 0) (0, 0, 0, 0)).1, (h.2 (fun j => 0) (0, 0, 0, 0)).2⟩

/-- Claim C5: an XceptionBlock runs its three Separable Conv Blocks in
    sequence with the configured stride applied only to the third, captures
    the output after the second as the side tap, then fuses according to the
    skip type — projected ("conv"): a 1x1 block-stride ConvBlock of the
    original input, batch-normalized, added to the third block's output;
    additive ("sum"): the original input added directly; none: the third
    block's output unmodified — and returns the pair (fused, tap) exactly
    when the return-tap flag is set, otherwise the fused output alone. -/
theorem c5_xception_block_structure (f0 f1 f2 st d : ℕ) (act rs : Bool) (x : Shape) :
    XceptionBlock.sepconv_blocks [f0, f1, f2] st d act
      = [⟨f0, 3, 1, d, act⟩, ⟨f1, 3, 1, d, act⟩, ⟨f2, 3, st, d, act⟩]
    ∧ XceptionBlock.call [f0, f1, f2] (some "conv") st d act rs x
      = (do
          let r1 ← SeparableConvBlock.call f0 3 1 d act x
          let r2 ← SeparableConvBlock.call f1 3 1 d act r1
          let r3 ← SeparableConvBlock.call f2 3 st d act r2
          let o ← ConvBlock.call f2 1 st 1 x
          let fused ← addLayer r3 (bnShape o)
          some (fused, if rs then some r2 else none))
    ∧ XceptionBlock.call [f0, f1, f2] (some "sum") st d act rs x
      = (do
          let r1 ← SeparableConvBlock.call f0 3 1 d act x
          let r2 ← SeparableConvBlock.call f1 3 1 d act r1
          let r3 ← SeparableConvBlock.call f2 3 st d act r2
          let fused ← addLayer r3 x
          some (fused, if rs then some r2 else none))
    ∧ XceptionBlock.call [f0, f1, f2] none st d act rs x
      = (do
          let r1 ← SeparableConvBlock.call f0 3 1 d act x
          let r2 ← SeparableConvBlock.call f1 3 1 d act r1
          let r3 ← SeparableConvBlock.call f2 3 st d act r2
          some (r3, if rs then some r2 else none)) := by
  refine ⟨sepconv_blocks_eq f0 f1 f2 st d act, ?_, ?_, ?_⟩ <;>
  · simp only [XceptionBlock.call, sepconv_blocks_eq, runSeps_three, SepConvCfg.call]
    cases h0 : SeparableConvBlock.call f0 3 1 d act x with
    | none => simp
    | some r1 =>
      cases h1 : SeparableConvBlock.call f1 3 1 d act r1 with
      | none => simp [h1]
      | some r2 =>
        cases h2 : SeparableConvBlock.call f2 3 st d act r2 with
        | none => simp [h1, h2]
        | some r3 => simp [h1, h2]

/-- Claim C10: when an additive-skip ("sum") XceptionBlock's main path
    produces a shape different from its input — e.g. mismatched filter counts
    or stride not 1 — the forward pass fails at the point of addition, and
    the failure (none) is propagated to the caller, never absorbed. -/
theorem c10_additive_skip_mismatch_fails (f0 f1 f2 st d : ℕ) (act rs : Bool)
    (x r : Shape)
    (hmain : (do
        let r1 ← SeparableConvBlock.call f0 3 1 d act x
        let r2 ← SeparableConvBlock.call f1 3 1 d act r1
        SeparableConvBlock.call f2 3 st d act r2) = some r)
    (hne : r ≠ x) :
    XceptionBlock.call [f0, f1, f2] (some "sum") st d act rs x = none := by
  simp only [XceptionBlock.call, sepconv_blocks_eq, runSeps_three, SepConvCfg.call]
  cases h0 : SeparableConvBlock.call f0 3 1 d act x with
  | none => rw [h0] at hmain; simp at hmain
  | some r1 =>
    rw [h0] at hmain
    cases h1 : SeparableConvBlock.call f1 3 1 d act r1 with
    | none => simp [h1] at hmain
    | some r2 =>
      cases h2 : SeparableConvBlock.call f2 3 st d act r2 with
      | none => simp [h1, h2] at hmain
      | some r3 =>
        simp [h1, h2] at hmain
        subst hmain
        simp [h1, h2, addLayer, hne]

/-- Witness for c10_additive_skip_mismatch_fails: an additive block built with
    filters [8, 8, 16] on a (1, 4, 4, 8) input (channel mismatch 16 vs 8)
    returns none. -/
theorem c10_additive_skip_mismatch_fails_witness :
    XceptionBlock.call [8, 8, 16] (some "sum") 1 1 false false ⟨1, 4, 4, 8⟩ = none := by
  apply c10_additive_skip_mismatch_fails 8 8 16 1 1 false false ⟨1, 4, 4, 8⟩ ⟨1, 4, 4, 16⟩
  · decide
  · decide

end DLV3
